import Mathlib

/-!
# wsrep-lib: `include/wsrep/transaction_context.hpp`

A shallow embedding of the classes `wsrep::transaction_id` and
`wsrep::transaction_context` and of the free function `wsrep::to_string`,
followed by theorems about them.

Conventions of the embedding:

* `wsrep_trx_id_t` (unsigned, 64 bit) is a `Nat` kept below `2 ^ 64` by the
  conversions that produce it; `wsrep_seqno_t` (signed, 64 bit) is an `Int`.
* a `const` member function is a pure function of the object; a mutating member
  function returns the new object.
* `assert` is modelled by an explicit check that ends the call with an
  `assert_failure` unless the build defines `NDEBUG`.
* member functions that the header only declares are modelled from the
  specification and say so in their doc comment.
-/

namespace wsrep

/-! ## Types of `wsrep_api.h` used by the header -/

/-- Modelled from the spec: the number of value bits of `wsrep_trx_id_t`. The header
`wsrep_api.h` that declares the type (`typedef uint64_t wsrep_trx_id_t;`) is not among this
repository's files; the identifier is "a provider-defined integer identifier", unsigned 64 bit. -/
def wsrep_trx_id_bits : Nat := 64

/-- The conversion `static_cast<wsrep_trx_id_t>(v)` (also written `wsrep_trx_id_t(v)`) of an
integer value to the unsigned type: reduction modulo `2 ^ wsrep_trx_id_bits`. -/
def wsrep_trx_id_cast (v : Int) : Nat :=
  (v % (2 : Int) ^ wsrep_trx_id_bits).toNat

/-- Modelled from the spec: `wsrep_gtid_t` of `wsrep_api.h` (not among this repository's files),
the global ordering identifier: the source of origin and the global sequence number
(`wsrep_seqno_t`, signed 64 bit). The header reads the field `seqno`. -/
structure wsrep_gtid_t where
  uuid : Nat
  seqno : Int
deriving DecidableEq, Repr

/-- Modelled from the spec: `wsrep_stid_t` of `wsrep_api.h` (not among this repository's files),
the source transaction identifier: originating node and transaction id (`wsrep_trx_id_t`).
The header reads the field `trx`. -/
structure wsrep_stid_t where
  node : Nat
  trx : Nat
deriving DecidableEq, Repr

/-- Modelled from the spec: `wsrep_trx_meta_t` of `wsrep_api.h` (not among this repository's
files), the global metadata "source id, transaction id, global sequence number". The header
reads `gtid.seqno` and `stid.trx`. -/
structure wsrep_trx_meta_t where
  gtid : wsrep_gtid_t
  stid : wsrep_stid_t
deriving DecidableEq, Repr

/-- Modelled from the spec: `wsrep_ws_handle_t` of `wsrep_api.h` (not among this repository's
files), the "opaque token identifying this transaction's write-set to the provider". -/
structure wsrep_ws_handle_t where
  trx_id : Nat
deriving DecidableEq, Repr

/-! ## `class transaction_id` -/

/-- The class `transaction_id`: one private member `id_` of type `wsrep_trx_id_t`. -/
structure transaction_id where
  id_ : Nat
deriving DecidableEq, Repr

namespace transaction_id

/-- The converting constructor `template <typename I> transaction_id(I id)`, at an integer
argument: `id_(static_cast<wsrep_trx_id_t>(id))`. -/
def ctor (id : Int) : transaction_id :=
  ⟨wsrep_trx_id_cast id⟩

/-- The member `get() const`: `return id_;`. -/
def get (t : transaction_id) : Nat :=
  t.id_

/-- The static member `invalid()`: `return wsrep_trx_id_t(-1);`. -/
def invalid : Nat :=
  wsrep_trx_id_cast (-1)

/-- The member `operator==`: `return (id_ == other.id_);`. -/
def operator_eq (a other : transaction_id) : Bool :=
  a.id_ == other.id_

/-- The member `operator!=`: `return (id_ != other.id_);`. -/
def operator_ne (a other : transaction_id) : Bool :=
  a.id_ != other.id_

end transaction_id

/-! ## `class transaction_context` -/

/-- The enumeration `transaction_context::state`, in declaration order. -/
inductive state where
  | s_executing
  | s_preparing
  | s_certifying
  | s_committing
  | s_ordered_commit
  | s_committed
  | s_cert_failed
  | s_must_abort
  | s_aborting
  | s_aborted
  | s_must_replay
  | s_replaying
deriving DecidableEq, Repr

open state

/-- The integer value of an enumerator (declaration order, starting at 0). -/
def state.val : state → Nat
  | s_executing => 0
  | s_preparing => 1
  | s_certifying => 2
  | s_committing => 3
  | s_ordered_commit => 4
  | s_committed => 5
  | s_cert_failed => 6
  | s_must_abort => 7
  | s_aborting => 8
  | s_aborted => 9
  | s_must_replay => 10
  | s_replaying => 11

/-- The constant `n_states = s_replaying + 1`. -/
def n_states : Nat := s_replaying.val + 1

/-- All enumerators, in declaration order. -/
def state.all : List state :=
  [s_executing, s_preparing, s_certifying, s_committing, s_ordered_commit, s_committed,
   s_cert_failed, s_must_abort, s_aborting, s_aborted, s_must_replay, s_replaying]

/-- The data members of `transaction_context`. The references `provider_` and
`client_context_` to the external collaborators carry no data of the transaction and are
left out. -/
structure transaction_context where
  id_ : transaction_id
  state_ : state
  state_hist_ : List state
  bf_abort_state_ : state
  bf_abort_client_state_ : Int
  ws_handle_ : wsrep_ws_handle_t
  trx_meta_ : wsrep_trx_meta_t
  flags_ : Nat
  pa_unsafe_ : Bool
  certified_ : Bool
  fragments_ : List wsrep_gtid_t
  rollback_replicated_for_ : transaction_id
deriving DecidableEq, Repr

namespace transaction_context

/-- The accessor `state() const`: `return state_;`. -/
def state (tc : transaction_context) : wsrep.state :=
  tc.state_

/-- The accessor `id() const`: `return id_;`. -/
def id (tc : transaction_context) : transaction_id :=
  tc.id_

/-- The accessor `active() const`: `return (id_ != wsrep::transaction_id::invalid());`.
The right operand is a `wsrep_trx_id_t`; it is converted to a `transaction_id` by the
converting constructor before `operator!=` is applied. -/
def active (tc : transaction_context) : Bool :=
  tc.id_.operator_ne (transaction_id.ctor (transaction_id.invalid : Int))

/-- The accessor `certified() const`: `return certified_;`. -/
def certified (tc : transaction_context) : Bool :=
  tc.certified_

/-- The accessor `seqno() const`: `return trx_meta_.gtid.seqno;`. -/
def seqno (tc : transaction_context) : Int :=
  tc.trx_meta_.gtid.seqno

/-- The accessor `ordered() const`: `return (trx_meta_.gtid.seqno > 0);`. -/
def ordered (tc : transaction_context) : Bool :=
  decide (tc.trx_meta_.gtid.seqno > 0)

/-- The accessor `is_streaming() const`: `return false;`. -/
def is_streaming (_tc : transaction_context) : Bool :=
  false

/-- The getter `pa_unsafe() const`: `return pa_unsafe_;`. -/
def pa_unsafe (tc : transaction_context) : Bool :=
  tc.pa_unsafe_

/-- The setter `pa_unsafe(bool pa_unsafe)`: `pa_unsafe_ = pa_unsafe;`. -/
def pa_unsafe_set (tc : transaction_context) ( pa_unsafe : Bool) : transaction_context :=
  { tc with pa_unsafe_ := pa_unsafe }

/-- The accessor `flags() const`: `return flags_;`. -/
def flags (tc : transaction_context) : Nat :=
  tc.flags_

/-- The accessor `ws_handle()`: `return ws_handle_;`. -/
def ws_handle (tc : transaction_context) : wsrep_ws_handle_t :=
  tc.ws_handle_

end transaction_context

/-! ## `to_string` -/

/-- The `switch` of `to_string` on the integer value of its argument: one `case` per
enumerator, and `return "unknown";` after the `switch` for every other value. -/
def to_string_switch : Nat → String
  | 0 => "executing"
  | 1 => "preparing"
  | 2 => "certifying"
  | 3 => "committing"
  | 4 => "ordered_commit"
  | 5 => "committed"
  | 6 => "cert_failed"
  | 7 => "must_abort"
  | 8 => "aborting"
  | 9 => "aborted"
  | 10 => "must_replay"
  | 11 => "replaying"
  | _ => "unknown"

/-- The function `to_string(enum wsrep::transaction_context::state state)`. -/
def to_string (s : state) : String :=
  to_string_switch s.val

/-- Modelled from the spec: the state names of section 4.1, in the order the section lists
them: "executing, preparing, certifying, committing, ordered_commit, committed, cert_failed,
must_abort, aborting, aborted, must_replay, replaying". -/
def spec_state_names : List String :=
  ["executing", "preparing", "certifying", "committing", "ordered_commit", "committed",
   "cert_failed", "must_abort", "aborting", "aborted", "must_replay", "replaying"]

/-! ## `start_transaction()` -/

/-- The `assert` of the header that ended a call. -/
inductive assert_failure where
  | active_eq_false
  | stid_trx_ne_invalid
deriving DecidableEq, Repr

/-- The inline member `start_transaction()`:

    assert(active() == false);
    assert(trx_meta_.stid.trx != transaction_id::invalid());
    return start_transaction(trx_meta_.stid.trx);

`ndebug` says whether the build defines `NDEBUG` (the asserts are then compiled out). The
overload `start_transaction(const wsrep::transaction_id&)` is only declared in the header and
is a parameter here; its argument is converted from `wsrep_trx_id_t` by the converting
constructor. -/
def transaction_context.start_transaction (ndebug : Bool)
    (start_transaction_id :
      transaction_context → transaction_id → Except assert_failure (Int × transaction_context))
    (tc : transaction_context) : Except assert_failure (Int × transaction_context) :=
  if !ndebug && !(tc.active == false) then
    Except.error assert_failure.active_eq_false
  else if !ndebug && !(tc.trx_meta_.stid.trx != transaction_id.invalid) then
    Except.error assert_failure.stid_trx_ne_invalid
  else
    start_transaction_id tc (transaction_id.ctor (tc.trx_meta_.stid.trx : Int))

/-! ## The state machine, modelled from the specification

The header declares `state(lock, new_state)`, `bf_abort` and the lifecycle calls without
defining them. The definitions below follow sections 4.1 to 4.3, 6 and 7 of the
specification, one state transition per definition. The mutex argument is left out: every
call runs under the transaction's lock, so calls are atomic steps in some order. -/

/-- Modelled from the spec: the status codes of the lifecycle calls, which section 6 lists as
"success / certification-failure / must-abort / must-replay / fatal-error", and the "distinct
error code" of section 7 for a protocol misuse. The header returns `int`; the declarations of
the values are missing. -/
inductive status where
  | success
  | certification_failure
  | must_abort
  | must_replay
  | fatal_error
  | protocol_misuse
deriving DecidableEq, Repr

/-- Modelled from the spec: the `int` a status is returned as; success is 0 and the error
codes are distinct non-zero values (the values themselves are not given by the spec). -/
def status.code : status → Int
  | status.success => 0
  | status.certification_failure => 1
  | status.must_abort => 2
  | status.must_replay => 3
  | status.fatal_error => 4
  | status.protocol_misuse => 5

namespace transaction_context

/-- Modelled from the spec: the member `state(lock, new_state)`, which the header only
declares. "Every transition is recorded in the state history ...; no transition is silently
dropped": the state that is left is appended to `state_hist_` and `state_` becomes the new
state, so that `state_hist_` followed by `state_` is the sequence of states visited. -/
def set_state (tc : transaction_context) (new_state : wsrep.state) : transaction_context :=
  { tc with state_hist_ := tc.state_hist_ ++ [tc.state_], state_ := new_state }

/-- Modelled from the spec: the member `start_transaction(const wsrep::transaction_id&)`,
which the header only declares. "start_transaction activates it", the initial state
executing is "entered on start_transaction", and a call "while already active" is a protocol
misuse that fails "with a distinct error code" and changes nothing. Entering the initial
state is not one of the transitions of section 4.1: the history of the new transaction starts
empty. -/
def start_transaction_id (tc : transaction_context) (id : transaction_id) :
    Int × transaction_context :=
  if tc.active then (status.protocol_misuse.code, tc)
  else (status.success.code, { tc with id_ := id, state_ := s_executing, state_hist_ := [] })

/-- Modelled from the spec: the member `bf_abort(lock, bf_seqno)`, which the header only
declares (section 4.3, rules 1 and 2, and section 6 for the result). In committed, aborted,
must_abort, aborting, must_replay and replaying "the notification is a no-op" and the result
is false; "otherwise, capture current state into bf_abort_state, transition to must_abort",
and the result is true ("whether the abort was accepted"). -/
def bf_abort (tc : transaction_context) (_bf_seqno : Int) : Bool × transaction_context :=
  match tc.state_ with
  | s_committed | s_aborted | s_must_abort | s_aborting | s_must_replay | s_replaying =>
    (false, tc)
  | _ => (true, ({ tc with bf_abort_state_ := tc.state_ }).set_state s_must_abort)

/-- Modelled from the spec: the captured states that, in the words of section 4.3, rule 3,
precede "the point where the write-set was durably ordered (i.e., strictly before
ordered_commit)": the states executing, preparing, certifying and committing that section 4.1
puts before ordered_commit on the way to committed, and cert_failed, in which the provider
has rejected the write-set, so that it was never ordered and the "caller must roll back"
(sections 4.1, 4.2, 7 and scenario 2 of section 8). -/
def precedes_ordering : wsrep.state → Bool
  | s_executing | s_preparing | s_certifying | s_committing | s_cert_failed => true
  | _ => false

/-- Modelled from the spec: the decision rule of section 4.3, rule 3, on the captured state:
the abort path when `bf_abort_state_` precedes the point where the write-set was ordered, the
replay path when it "is at or after ordered_commit". Section 4.2 names the same boundary
("ordered_commit() is therefore the boundary past which a BF-abort can no longer simply
discard the transaction"), as do section 8 and its scenarios 3 and 4; the parenthesis
"committing or later" of section 4.1 is not followed. -/
def must_replay_decided (tc : transaction_context) : Bool :=
  !precedes_ordering tc.bf_abort_state_

/-- Modelled from the spec: the private member `cleanup` (declared only), section 3: it
"clears write-set handle, fragments, and certification flags". The id is "not reset until
cleanup": after committed or aborted the cleanup ends the transaction and the id goes back to
the invalid sentinel, so that the object can be reused by the next `start_transaction`;
"before a replay re-attempt" the replay reuses "the same identity" and the id is kept. -/
def cleanup (tc : transaction_context) : transaction_context :=
  match tc.state_ with
  | s_committed | s_aborted =>
    { tc with id_ := transaction_id.ctor (transaction_id.invalid : Int), ws_handle_ := ⟨0⟩,
              fragments_ := [], certified_ := false }
  | _ => { tc with ws_handle_ := ⟨0⟩, fragments_ := [], certified_ := false }

/-- Modelled from the spec: `cleanup` as it is "invoked after terminal states
s_committed/s_aborted" (section 3); the specification does not say which declared call
invokes it. In every other state nothing happens. -/
def cleanup_after_terminal (tc : transaction_context) : transaction_context :=
  match tc.state_ with
  | s_committed | s_aborted => tc.cleanup
  | _ => tc

/-- Modelled from the spec: the transition of `before_prepare` (declared only), section 4.1:
executing to preparing. -/
def before_prepare (tc : transaction_context) : transaction_context :=
  match tc.state_ with
  | s_executing => tc.set_state s_preparing
  | _ => tc

/-- Modelled from the spec: the transition of `after_prepare` (declared only), section 4.1:
preparing to certifying, where "certification is attempted"; `certified` "is reset to false
at the start of every new certification attempt". -/
def after_prepare (tc : transaction_context) : transaction_context :=
  match tc.state_ with
  | s_preparing => ({ tc with certified_ := false }).set_state s_certifying
  | _ => tc

/-- Modelled from the spec: the first transition of `before_commit` (declared only), section
4.1: to certifying "directly from executing/preparing on before_commit if no explicit
two-phase prepare was used"; `certified` "is reset to false at the start of every new
certification attempt". -/
def before_commit (tc : transaction_context) : transaction_context :=
  match tc.state_ with
  | s_executing | s_preparing => ({ tc with certified_ := false }).set_state s_certifying
  | _ => tc

/-- Modelled from the spec: the provider accepts the write-set submitted by `certify_fragment`
(private, declared only), section 4.2: "on success: records global_meta ..., sets certified =
true, transitions to committing"; the sequence number "becomes positive". -/
def certify_success (tc : transaction_context) (seqno : Int) : transaction_context :=
  match tc.state_ with
  | s_certifying =>
    if 0 < seqno then
      ({ tc with trx_meta_ := { tc.trx_meta_ with gtid := { tc.trx_meta_.gtid with seqno := seqno } },
                 certified_ := true }).set_state s_committing
    else tc
  | _ => tc

/-- Modelled from the spec: the provider rejects the write-set submitted by `certify_fragment`
(private, declared only), section 4.2: "on rejection: sets certified = false, transitions to
cert_failed". -/
def certify_rejected (tc : transaction_context) : transaction_context :=
  match tc.state_ with
  | s_certifying => ({ tc with certified_ := false }).set_state s_cert_failed
  | _ => tc

/-- Modelled from the spec: the transition of `ordered_commit` (declared only), section 4.1:
committing to ordered_commit. -/
def ordered_commit (tc : transaction_context) : transaction_context :=
  match tc.state_ with
  | s_committing => tc.set_state s_ordered_commit
  | _ => tc

/-- Modelled from the spec: the transition of `after_commit` (declared only), section 4.1:
ordered_commit to committed, "after_commit records this and fragments are cleared". -/
def after_commit (tc : transaction_context) : transaction_context :=
  match tc.state_ with
  | s_ordered_commit => ({ tc with fragments_ := [] }).set_state s_committed
  | _ => tc

/-- Modelled from the spec: the transition of `before_rollback` (declared only). Section 4.1:
"must_abort to aborting to aborted: local rollback proceeds via before_rollback /
after_rollback", taken when rule 3 of section 4.3 decides for the abort path; after a failed
certification the "caller must roll back" and the "caller-driven rollback moves it to aborted"
(section 8, scenario 2). -/
def before_rollback (tc : transaction_context) : transaction_context :=
  match tc.state_ with
  | s_must_abort => if tc.must_replay_decided then tc else tc.set_state s_aborting
  | s_cert_failed => tc.set_state s_aborting
  | _ => tc

/-- Modelled from the spec: the transition of `after_rollback` (declared only), section 4.1:
aborting to aborted. -/
def after_rollback (tc : transaction_context) : transaction_context :=
  match tc.state_ with
  | s_aborting => tc.set_state s_aborted
  | _ => tc

/-- Modelled from the spec: the first step of the replay path, section 4.3, rule 3: when the
captured state is at or after ordered_commit the transaction "transitions must_abort to
must_replay". The specification does not say which declared call performs it. -/
def replay_decide (tc : transaction_context) : transaction_context :=
  match tc.state_ with
  | s_must_abort => if tc.must_replay_decided then tc.set_state s_must_replay else tc
  | _ => tc

/-- Modelled from the spec: the owning execution context starts to re-execute the
transaction, section 4.1: must_replay to replaying, `cleanup` being invoked "before a replay
re-attempt" (section 3). -/
def replay_begin (tc : transaction_context) : transaction_context :=
  match tc.state_ with
  | s_must_replay => tc.cleanup.set_state s_replaying
  | _ => tc

/-- Modelled from the spec: the replay ends, section 4.3, rule 3: from replaying, "skipping
certification ... and proceeding straight to committed". -/
def replay_commit (tc : transaction_context) : transaction_context :=
  match tc.state_ with
  | s_replaying => tc.set_state s_committed
  | _ => tc

end transaction_context

/-- Modelled from the spec: what can happen to one transaction_context: the lifecycle calls
of the header (section 6), the answer of the provider to a certification, the BF-abort
notification, the three steps of the replay path, and the cleanup after a terminal state. -/
inductive event where
  | start_transaction (id : transaction_id)
  | append_key
  | append_data
  | after_row
  | before_statement
  | after_statement
  | before_prepare
  | after_prepare
  | before_commit
  | certify_success (seqno : Int)
  | certify_rejected
  | ordered_commit
  | after_commit
  | before_rollback
  | after_rollback
  | bf_abort (bf_seqno : Int)
  | replay_decide
  | replay_begin
  | replay_commit
  | cleanup
deriving DecidableEq, Repr

namespace transaction_context

/-- Modelled from the spec: the effect of one event on the transaction_context. The
specification describes no state transition for `append_key`, `append_data`, `after_row`,
`before_statement` and `after_statement`. An event that the specification does not describe in
the current state changes nothing. -/
def step (tc : transaction_context) : event → transaction_context
  | event.start_transaction id => (tc.start_transaction_id id).2
  | event.append_key => tc
  | event.append_data => tc
  | event.after_row => tc
  | event.before_statement => tc
  | event.after_statement => tc
  | event.before_prepare => tc.before_prepare
  | event.after_prepare => tc.after_prepare
  | event.before_commit => tc.before_commit
  | event.certify_success seqno => tc.certify_success seqno
  | event.certify_rejected => tc.certify_rejected
  | event.ordered_commit => tc.ordered_commit
  | event.after_commit => tc.after_commit
  | event.before_rollback => tc.before_rollback
  | event.after_rollback => tc.after_rollback
  | event.bf_abort bf_seqno => (tc.bf_abort bf_seqno).2
  | event.replay_decide => tc.replay_decide
  | event.replay_begin => tc.replay_begin
  | event.replay_commit => tc.replay_commit
  | event.cleanup => tc.cleanup_after_terminal

/-- A sequence of events applied from left to right. -/
def run (tc : transaction_context) (es : List event) : transaction_context :=
  es.foldl step tc

end transaction_context

/-- A transaction_context as it is before the first `start_transaction`: "created inactive
(id invalid)", nothing recorded, no sequence number, used as the concrete input of the
examples. -/
def example_context : transaction_context :=
  { id_ := transaction_id.ctor (transaction_id.invalid : Int)
    state_ := s_executing
    state_hist_ := []
    bf_abort_state_ := s_executing
    bf_abort_client_state_ := 0
    ws_handle_ := ⟨0⟩
    trx_meta_ := ⟨⟨0, -1⟩, ⟨0, 5⟩⟩
    flags_ := 0
    pa_unsafe_ := false
    certified_ := false
    fragments_ := []
    rollback_replicated_for_ := transaction_id.ctor (transaction_id.invalid : Int) }

/-- The transaction_context after `start_transaction(5)` on `example_context`: active, in
executing, nothing recorded. -/
def started_context : transaction_context :=
  (example_context.start_transaction_id (transaction_id.ctor 5)).2

/-! ## Theorems -/

/-! ### Helper lemmas on the conversion to `wsrep_trx_id_t` -/

lemma wsrep_trx_id_cast_eq (v : Int) :
    (wsrep_trx_id_cast v : Int) = v % (2 : Int) ^ 64 := by
  unfold wsrep_trx_id_cast wsrep_trx_id_bits
  exact Int.toNat_of_nonneg (Int.emod_nonneg v (by norm_num))

lemma wsrep_trx_id_cast_lt (v : Int) : wsrep_trx_id_cast v < 2 ^ 64 := by
  have h := wsrep_trx_id_cast_eq v
  have h2 : v % (2 : Int) ^ 64 < (2 : Int) ^ 64 := Int.emod_lt_of_pos v (by norm_num)
  omega

lemma wsrep_trx_id_cast_of_lt (n : Nat) (h : n < 2 ^ 64) :
    wsrep_trx_id_cast (n : Int) = n := by
  have h1 := wsrep_trx_id_cast_eq (n : Int)
  have h2 : ((n : Int)) % (2 : Int) ^ 64 = n := by
    apply Int.emod_eq_of_lt <;> omega
  omega

lemma transaction_id.invalid_eq : transaction_id.invalid = 2 ^ 64 - 1 := by
  have h := wsrep_trx_id_cast_eq (-1)
  unfold transaction_id.invalid
  norm_num at h
  omega

lemma transaction_id.ctor_invalid :
    transaction_id.ctor (transaction_id.invalid : Int) = ⟨transaction_id.invalid⟩ := by
  unfold transaction_id.ctor
  rw [wsrep_trx_id_cast_of_lt]
  rw [transaction_id.invalid_eq]
  norm_num

/-! ### Accessors of `transaction_context` -/

/-- C4: whatever the stored global metadata, `ordered()` is true if and only if `seqno()` is
greater than 0, where `seqno()` is the stored `trx_meta_.gtid.seqno`; `ordered()` is false
exactly for the seqno 0 and the negative seqnos. -/
theorem C4_ordered_iff_seqno_pos (tc : transaction_context) :
    tc.seqno = tc.trx_meta_.gtid.seqno ∧
    (tc.ordered = true ↔ 0 < tc.seqno) ∧
    (tc.ordered = false ↔ tc.seqno ≤ 0) := by
  refine ⟨rfl, ?_, ?_⟩
  · simp [transaction_context.ordered, transaction_context.seqno]
  · simp [transaction_context.ordered, transaction_context.seqno]

/-- C5: `active()` is false exactly when `id()` equals the invalid sentinel
`transaction_id::invalid()`, the comparison being `operator!=` of `transaction_id`, and true
for every other id. -/
theorem C5_active_iff_id_valid (tc : transaction_context) :
    tc.active = tc.id.operator_ne (transaction_id.ctor (transaction_id.invalid : Int)) ∧
    (tc.active = false ↔ tc.id.get = transaction_id.invalid) ∧
    (tc.active = true ↔ tc.id.get ≠ transaction_id.invalid) := by
  have h : tc.active = (tc.id_.id_ != transaction_id.invalid) := by
    unfold transaction_context.active
    rw [transaction_id.ctor_invalid]
    rfl
  refine ⟨rfl, ?_, ?_⟩
  · rw [h]
    simp [transaction_context.id, transaction_id.get]
  · rw [h]
    simp [transaction_context.id, transaction_id.get]

/-- C7: in every state and for every boolean `b`, after the setter `pa_unsafe(b)` the getter
`pa_unsafe()` returns `b`, and `id()`, `active()`, `state()`, `certified()`, `seqno()`,
`ordered()` and `flags()` return what they returned before. -/
theorem C7_pa_unsafe_frame (tc : transaction_context) (b : Bool) :
    transaction_context.pa_unsafe (tc.pa_unsafe_set b) = b ∧
    (tc.pa_unsafe_set b).id = tc.id ∧
    (tc.pa_unsafe_set b).active = tc.active ∧
    (tc.pa_unsafe_set b).state = tc.state ∧
    (tc.pa_unsafe_set b).certified = tc.certified ∧
    (tc.pa_unsafe_set b).seqno = tc.seqno ∧
    (tc.pa_unsafe_set b).ordered = tc.ordered ∧
    (tc.pa_unsafe_set b).flags = tc.flags :=
  ⟨rfl, rfl, rfl, rfl, rfl, rfl, rfl, rfl⟩

/-! ### `transaction_id` -/

/-- C8: `a == b` holds if and only if `a.get() == b.get()`, `a != b` holds if and only if
`a == b` does not; `==` is reflexive, symmetric and transitive; and `get()` returns the
`wsrep_trx_id_t` value the id was constructed with, before and after any comparison. -/
theorem C8_transaction_id_equality (a b c : transaction_id) :
    (a.operator_eq b = true ↔ a.get = b.get) ∧
    (a.operator_ne b = true ↔ a.operator_eq b = false) ∧
    a.operator_eq a = true ∧
    a.operator_eq b = b.operator_eq a ∧
    (a.operator_eq b = true ∧ b.operator_eq c = true → a.operator_eq c = true) ∧
    (a.operator_eq b = true ↔ a = b) ∧
    (∀ n : Nat, n < 2 ^ 64 → (transaction_id.ctor (n : Int)).get = n) := by
  obtain ⟨x⟩ := a
  obtain ⟨y⟩ := b
  obtain ⟨z⟩ := c
  refine ⟨?_, ?_, ?_, ?_, ?_, ?_, ?_⟩
  · simp [transaction_id.operator_eq, transaction_id.get]
  · simp [transaction_id.operator_eq, transaction_id.operator_ne, bne]
  · simp [transaction_id.operator_eq]
  · simp only [transaction_id.operator_eq]
    rw [Bool.eq_iff_iff, beq_iff_eq, beq_iff_eq]
    exact eq_comm
  · simp only [transaction_id.operator_eq, beq_iff_eq]
    rintro ⟨h1, h2⟩
    exact h1.trans h2
  · simp [transaction_id.operator_eq]
  · intro n hn
    simp only [transaction_id.ctor, transaction_id.get]
    exact wsrep_trx_id_cast_of_lt n hn

/-- Witness of C8 at the ids 5 and 7: equality is decided by the stored values, and `get()`
returns the value 5 the id was constructed with. -/
theorem C8_transaction_id_equality_witness :
    (transaction_id.ctor 5).operator_eq (transaction_id.ctor 7) = false ∧
    (transaction_id.ctor 5).operator_ne (transaction_id.ctor 7) = true ∧
    (transaction_id.ctor (5 : Nat)).get = 5 :=
  ⟨by decide, by decide,
   (C8_transaction_id_equality (transaction_id.ctor 5) (transaction_id.ctor 7)
      (transaction_id.ctor 5)).2.2.2.2.2.2 5 (by norm_num)⟩

/-! ### `to_string` -/

/-- C9: `to_string` is total on the enumeration: for each of the twelve states it returns the
name of the state in section 4.1 of the spec, it never returns "unknown" for a state of the
enumeration, and distinct states get distinct names. -/
theorem C9_to_string_names :
    to_string s_executing = "executing" ∧
    to_string s_preparing = "preparing" ∧
    to_string s_certifying = "certifying" ∧
    to_string s_committing = "committing" ∧
    to_string s_ordered_commit = "ordered_commit" ∧
    to_string s_committed = "committed" ∧
    to_string s_cert_failed = "cert_failed" ∧
    to_string s_must_abort = "must_abort" ∧
    to_string s_aborting = "aborting" ∧
    to_string s_aborted = "aborted" ∧
    to_string s_must_replay = "must_replay" ∧
    to_string s_replaying = "replaying" ∧
    state.all.map to_string = spec_state_names ∧
    (∀ s : state, s ∈ state.all ∧ to_string s ≠ "unknown") ∧
    (∀ s t : state, to_string s = to_string t ↔ s = t) := by
  refine ⟨rfl, rfl, rfl, rfl, rfl, rfl, rfl, rfl, rfl, rfl, rfl, rfl, rfl, ?_, ?_⟩
  · intro s
    cases s <;> exact ⟨by decide, by decide⟩
  · intro s t
    cases s <;> cases t <;> decide

/-! ### The invalid sentinel and the converting constructor -/

/-- C10: the invalid sentinel is `2 ^ 64 - 1`; the converting constructor reduces its argument
modulo `2 ^ 64`; an id built from `v` is the sentinel (and a context holding it is not active)
if and only if `v` is congruent to `-1` modulo `2 ^ 64`, as for a signed `-1`; and every `v`
in `0 .. 2 ^ 64 - 2` gives an id that is not the sentinel and that `get()` returns
unchanged. -/
theorem C10_invalid_sentinel_and_cast (v : Int) (tc : transaction_context) :
    transaction_id.invalid = 2 ^ 64 - 1 ∧
    ((transaction_id.ctor v).get : Int) = v % (2 : Int) ^ 64 ∧
    ((transaction_id.ctor v).get = transaction_id.invalid ↔
        v % (2 : Int) ^ 64 = (-1) % (2 : Int) ^ 64) ∧
    (({ tc with id_ := transaction_id.ctor v } : transaction_context).active = false ↔
        v % (2 : Int) ^ 64 = (-1) % (2 : Int) ^ 64) ∧
    (transaction_id.ctor (-1)).get = transaction_id.invalid ∧
    (0 ≤ v ∧ v ≤ 2 ^ 64 - 2 →
        ((transaction_id.ctor v).get : Int) = v ∧
        (transaction_id.ctor v).get ≠ transaction_id.invalid ∧
        ({ tc with id_ := transaction_id.ctor v } : transaction_context).active = true) := by
  have hact : ∀ t : transaction_context, t.active = (t.id_.id_ != transaction_id.invalid) := by
    intro t
    unfold transaction_context.active
    rw [transaction_id.ctor_invalid]
    rfl
  have hv := wsrep_trx_id_cast_eq v
  have hm := wsrep_trx_id_cast_eq (-1)
  have hinv := transaction_id.invalid_eq
  have hiff : wsrep_trx_id_cast v = transaction_id.invalid ↔
      v % (2 : Int) ^ 64 = (-1) % (2 : Int) ^ 64 := by
    unfold transaction_id.invalid
    rw [← hv, ← hm]
    exact Nat.cast_inj.symm
  refine ⟨hinv, hv, hiff, ?_, rfl, ?_⟩
  · rw [hact]
    simpa [transaction_id.ctor] using hiff
  · rintro ⟨h0, h1⟩
    have hmod : v % (2 : Int) ^ 64 = v := Int.emod_eq_of_lt h0 (by omega)
    have hne : wsrep_trx_id_cast v ≠ transaction_id.invalid := by
      intro h
      rw [h, hinv] at hv
      rw [hmod] at hv
      omega
    refine ⟨hv.trans hmod, hne, ?_⟩
    rw [hact]
    simpa [transaction_id.ctor] using hne

/-- Witness of C10 at the argument 5: the id built from 5 is not the sentinel, `get()` returns
5, and a context holding the id is active. -/
theorem C10_invalid_sentinel_and_cast_witness :
    ((transaction_id.ctor 5).get : Int) = 5 ∧
    (transaction_id.ctor 5).get ≠ transaction_id.invalid ∧
    ({ example_context with id_ := transaction_id.ctor 5 } : transaction_context).active
      = true :=
  (C10_invalid_sentinel_and_cast 5 example_context).2.2.2.2.2 ⟨by norm_num, by norm_num⟩

/-! ### `start_transaction()` on an active transaction -/

/-- C6 (as stated, refuted): on the active `started_context`, in a build with assertions,
`start_transaction()` returns no error code at all: the call ends in the failure of
`assert(active() == false)`. The overload it would forward to is taken as the one modelled
from the specification. -/
theorem C6_counterexample_no_error_code :
    started_context.active = true ∧
    started_context.start_transaction false
        (fun t id => Except.ok (t.start_transaction_id id)) =
      Except.error assert_failure.active_eq_false ∧
    ¬ ∃ (rc : Int) (tc1 : transaction_context),
        started_context.start_transaction false
            (fun t id => Except.ok (t.start_transaction_id id)) = Except.ok (rc, tc1) ∧
        rc ≠ status.success.code ∧ tc1.id = started_context.id ∧
        tc1.state = started_context.state := by
  have h : started_context.start_transaction false
      (fun t id => Except.ok (t.start_transaction_id id)) =
      Except.error assert_failure.active_eq_false := rfl
  refine ⟨by decide, h, ?_⟩
  rintro ⟨rc, tc1, h1, -⟩
  rw [h] at h1
  cases h1

/-- C6 (amended): on an active transaction_context `start_transaction()` returns no status
code in a build with assertions: whatever the forwarded overload is, the call ends in the
failure of `assert(active() == false)` before anything is written, so no second transaction is
started and id and state are not changed. In a build with `NDEBUG` the asserts are compiled
out and the call is forwarded unguarded to `start_transaction(trx_meta_.stid.trx)`, whose
result it returns. -/
theorem C6_start_transaction_active_asserts (tc : transaction_context)
    (f : transaction_context → transaction_id → Except assert_failure (Int × transaction_context))
    (hact : tc.active = true) :
    tc.start_transaction false f = Except.error assert_failure.active_eq_false ∧
    tc.start_transaction true f = f tc (transaction_id.ctor (tc.trx_meta_.stid.trx : Int)) := by
  constructor
  · simp [transaction_context.start_transaction, hact]
  · simp [transaction_context.start_transaction]

/-- Witness of C6 (amended) at the active `started_context`. -/
theorem C6_start_transaction_active_asserts_witness :
    started_context.active = true ∧
    started_context.start_transaction false
        (fun t id => Except.ok (t.start_transaction_id id)) =
      Except.error assert_failure.active_eq_false ∧
    started_context.start_transaction true
        (fun t id => Except.ok (t.start_transaction_id id)) =
      Except.ok (status.protocol_misuse.code, started_context) :=
  ⟨by decide,
   (C6_start_transaction_active_asserts started_context _ (by decide)).1,
   (C6_start_transaction_active_asserts started_context
      (fun t id => Except.ok (t.start_transaction_id id)) (by decide)).2.trans rfl⟩

/-! ### Helper lemmas on the state machine -/

open transaction_context

/-- C2: in committed, aborted, must_abort, aborting, must_replay and replaying, for every
`bf_seqno`, `bf_abort` returns false and leaves the whole transaction_context unchanged; and
whatever the state, a second `bf_abort` right after a first one returns false and changes
nothing, the first one having left the transaction in one of those six states. -/
theorem C2_bf_abort_noop_idempotent (tc : transaction_context) (bf_seqno bf_seqno2 : Int) :
    (tc.state ∈ [s_committed, s_aborted, s_must_abort, s_aborting, s_must_replay,
        s_replaying] → tc.bf_abort bf_seqno = (false, tc)) ∧
    (tc.bf_abort bf_seqno).2.state ∈ [s_committed, s_aborted, s_must_abort, s_aborting,
        s_must_replay, s_replaying] ∧
    (tc.bf_abort bf_seqno).2.bf_abort bf_seqno2 = (false, (tc.bf_abort bf_seqno).2) := by
  unfold transaction_context.state
  cases hs : tc.state_ <;>
    simp [transaction_context.bf_abort, transaction_context.set_state, hs]

/-- Witness of C2 at a transaction that a first BF-abort, accepted in committing, has put in
must_abort: the second BF-abort returns false and changes nothing. -/
theorem C2_bf_abort_noop_idempotent_witness :
    (started_context.run [event.before_commit, event.certify_success 100,
        event.bf_abort 50]).state ∈
      [s_committed, s_aborted, s_must_abort, s_aborting, s_must_replay, s_replaying] ∧
    (started_context.run [event.before_commit, event.certify_success 100,
        event.bf_abort 50]).bf_abort 51 =
      (false, started_context.run [event.before_commit, event.certify_success 100,
        event.bf_abort 50]) :=
  ⟨by decide,
   (C2_bf_abort_noop_idempotent
      (started_context.run [event.before_commit, event.certify_success 100, event.bf_abort 50])
      51 0).1 (by decide)⟩

end wsrep
